import Mathlib

/-!
Shallow embedding of `noxfile.py` (task orchestration for a documentation
repository): the dependency installer with constraint pinning, the container
engine resolver, requirement-set discovery, the pip-compile session, the
relaxed-flag sessions and the lint aggregator.

Python dictionaries are modelled as association lists with a `dictUpdate`
operation mimicking `dict.update` (later values overwrite earlier ones for
the same key, first occurrence replaced in place).  Python truthiness of
strings (`if s:`) is modelled by comparison with the empty string.
-/

namespace Noxfile

/-- Python `dict.__setitem__`: replace the value at the first entry with the
given key, or append a new entry at the end. -/
def dictInsert : List (String × String) → String → String → List (String × String)
  | [], k, v => [(k, v)]
  | p :: rest, k, v => if p.1 = k then (k, v) :: rest else p :: dictInsert rest k v

/-- Python `d.update(u)`: fold `dictInsert` over the entries of `u`. -/
def dictUpdate (d u : List (String × String)) : List (String × String) :=
  u.foldl (fun acc p => dictInsert acc p.1 p.2) d

/-- Python `d.get(k)`: value of the first entry with key `k`, if any. -/
def dictGet : List (String × String) → String → Option String
  | [], _ => none
  | p :: d, k => if p.1 = k then some p.2 else dictGet d k

/-- Python `str.lower()`, character by character. -/
def pyLower (s : String) : String := ⟨s.data.map Char.toLower⟩

/-- `PINNED = os.environ.get("PINNED", "true").lower() in {"1", "true"}`,
as a function of the raw value of the `PINNED` environment variable. -/
def PINNED (envVal : Option String) : Bool :=
  pyLower (envVal.getD "true") == "1" || pyLower (envVal.getD "true") == "true"

/-- `pip_constraint = f"tests/{req}.txt"` in `install`. -/
def pipConstraint (req : String) : String := "tests/" ++ req ++ ".txt"

/-- The environment mapping built by `_set_env_verbose(session,
PIP_CONSTRAINT=..., UV_CONSTRAINT=..., UV_BUILD_CONSTRAINT=...)`:
the three constraint variables, all set to `pipConstraint req`. -/
def pinEnv (req : String) : List (String × String) :=
  [("PIP_CONSTRAINT", pipConstraint req),
   ("UV_CONSTRAINT", pipConstraint req),
   ("UV_BUILD_CONSTRAINT", pipConstraint req)]

/-- The keyword arguments a caller passes to `install`: an optional `env`
dict and the remaining keyword arguments (opaque key/value pairs). -/
structure Kwargs where
  env : Option (List (String × String))
  rest : List (String × String)
deriving Repr, DecidableEq

/-- The observable effect of one call to `install`: the positional arguments
handed to `session.install`, the environment variables exported via
`_set_env_verbose`, and the `env` / remaining keyword arguments passed on to
`session.install`. -/
structure InstallCall where
  installArgs : List String
  envSet : List (String × String)
  env : Option (List (String × String))
  rest : List (String × String)
deriving Repr, DecidableEq

/-- `def install(session, *args, req, **kwargs)`:
if `PINNED`, build `pinEnv req`, then `kwargs.setdefault("env", {}).update(env)`
(so the caller's `env` — or a fresh empty dict — is updated with the pinning
variables, pinning values overwriting the caller's on equal keys); finally
`session.install("-r", f"tests/{req}.in", *args, **kwargs)`. -/
def install (pinned : Bool) (req : String) (args : List String) (kwargs : Kwargs) :
    InstallCall :=
  if pinned then
    { installArgs := ["-r", "tests/" ++ req ++ ".in"] ++ args
      envSet := pinEnv req
      env := some (dictUpdate (kwargs.env.getD []) (pinEnv req))
      rest := kwargs.rest }
  else
    { installArgs := ["-r", "tests/" ++ req ++ ".in"] ++ args
      envSet := []
      env := kwargs.env
      rest := kwargs.rest }

/-- `CONTAINER_ENGINES = ("podman", "docker")`. -/
def CONTAINER_ENGINES : List String := ["podman", "docker"]

/-- Python truthiness of an optional string: `None` and `""` are falsy. -/
def truthyStr (s : Option String) : Bool :=
  if s.getD "" = "" then false else true

/-- The single quote character, used to model Python `repr` of a string. -/
def sq : String := String.singleton (Char.ofNat 39)

/-- Python `repr` of a (quote-free) string: wrap in single quotes. -/
def pyRepr (s : String) : String := sq ++ s ++ sq

/-- Result of `_get_container_engine`: a resolved path, or a `session.error`
abort carrying its message. -/
inductive EngineResult where
  | ok (path : String)
  | err (msg : String)
deriving Repr, DecidableEq

/-- The f-string of the error for an unresolvable explicit override. -/
def overrideErrMsg (chosen : String) : String :=
  "CONTAINER_ENGINE " ++ pyRepr chosen ++ " does not exist!"

/-- The f-string of the error when no candidate engine is found;
`{CONTAINER_ENGINES}` formats as the Python tuple repr. -/
def noEngineErrMsg (sessionName : String) : String :=
  "None of the following container engines were found: (" ++
    pyRepr "podman" ++ ", " ++ pyRepr "docker" ++ ")." ++
    " " ++ sessionName ++ " requires a container engine installed."

/-- The `for engine in CONTAINER_ENGINES` probe loop with the walrus test
`if path := shutil.which(engine)`. -/
def probeEngines (which : String → Option String) (sessionName : String) :
    List String → EngineResult
  | [] => .err (noEngineErrMsg sessionName)
  | engine :: restEngines =>
    if truthyStr (which engine) then .ok ((which engine).getD "")
    else probeEngines which sessionName restEngines

/-- `_get_container_engine(session)`, as a function of the search-path
resolver `which` (modelling `shutil.which`), the raw value of the
`CONTAINER_ENGINE` environment variable and `session.name`. -/
def get_container_engine (which : String → Option String)
    (chosen : Option String) (sessionName : String) : EngineResult :=
  if truthyStr chosen then
    let c := chosen.getD ""
    if truthyStr (which c) then .ok ((which c).getD "")
    else .err (overrideErrMsg c)
  else
    probeEngines which sessionName CONTAINER_ENGINES

/-- Python `arg.startswith(p)`, on the character lists of the strings. -/
def pyStartsWith (arg p : String) : Bool := p.data.isPrefixOf arg.data

/-- `arg.startswith(("-P", "--upgrade-package", "--no-upgrade"))` from the
`elif` in `pip_compile`. -/
def upgradeArg (arg : String) : Bool :=
  pyStartsWith arg "-P" || pyStartsWith arg "--upgrade-package" ||
    pyStartsWith arg "--no-upgrade"

/-- The argument-list transformation of `pip_compile`: starting from
`args = list(session.posargs)`, if `"--check" in args` remove its first
occurrence (`args.remove("--check")`); otherwise append `"--upgrade"` unless
some argument starts with `-P`, `--upgrade-package` or `--no-upgrade`. -/
def pip_compile_args (posargs : List String) : List String :=
  if "--check" ∈ posargs then posargs.erase "--check"
  else if posargs.any upgradeArg then posargs
  else posargs ++ ["--upgrade"]

/-- The full command line of the `session.run("pip-compile", ...)` call. -/
def pip_compile_cmd (req : String) (posargs : List String) : List String :=
  ["pip-compile", "--output-file", "tests/" ++ req ++ ".txt"] ++
    pip_compile_args posargs ++ ["tests/" ++ req ++ ".in"]

/-- Outcome of a session: success, a `session.error` abort with its message,
or a failure of an invoked tool. -/
inductive Outcome where
  | success
  | error (msg : String)
  | toolFailure
deriving Repr, DecidableEq

/-- Observable trace of one `pip_compile` session run: the `pip-compile`
command line, the directory `git diff` was run against (if it was run), and
the session outcome. -/
structure PipCompileTrace where
  cmd : List String
  gitDiff : Option String
  outcome : Outcome
deriving Repr, DecidableEq

/-- The `pip_compile` session after `session.install("pip-tools >= 7", ...)`:
run `pip-compile` with the assembled arguments; when it succeeds and
`check_mode` holds, run `git diff tests` (silent) and abort with
`"Check mode: files were changed"` iff its output is truthy (nonempty).
`toolOk` models the exit status of the `pip-compile` subprocess and
`diffOutput` the captured output of `git diff tests`. -/
def pip_compile_run (req : String) (posargs : List String)
    (toolOk : Bool) (diffOutput : String) : PipCompileTrace :=
  let check_mode := "--check" ∈ posargs
  let cmd := pip_compile_cmd req posargs
  if !toolOk then { cmd := cmd, gitDiff := none, outcome := .toolFailure }
  else if check_mode then
    if diffOutput = "" then
      { cmd := cmd, gitDiff := some "tests", outcome := .success }
    else
      { cmd := cmd, gitDiff := some "tests",
        outcome := .error "Check mode: files were changed" }
  else { cmd := cmd, gitDiff := none, outcome := .success }

/-- The suffix test of the glob pattern `*in` on a filename. -/
def matchesGlobIn (name : String) : Bool := "in".data.isSuffixOf name.data

/-- Python `name.replace(".in", "")` on the character list: a left-to-right
scan deleting each non-overlapping occurrence of `.in`. -/
def stripDotIn : List Char → List Char
  | '.' :: 'i' :: 'n' :: cs => stripDotIn cs
  | c :: cs => c :: stripDotIn cs
  | [] => []

/-- Python `name.replace(".in", "")`. -/
def pyReplaceDotIn (name : String) : String := ⟨stripDotIn name.data⟩

/-- `requirements_files = list({path.name.replace(".in", "") for path in
Path("tests").glob("*in")} - {"constraints", "constraints-base"})`, as a
function of the directory listing of `tests`.  The set comprehension is
modelled by `dedup`, the set difference by a filter. -/
def requirements_files (listing : List String) : List String :=
  (((listing.filter matchesGlobIn).map pyReplaceDotIn).dedup).filter
    (fun name => name ≠ "constraints" ∧ name ≠ "constraints-base")

/-- Observable trace of the `lint` session: the task names it notifies, the
requirement sets it installs and the commands it runs. -/
structure LintTrace where
  notified : List String
  installs : List String
  commands : List (List String)
deriving Repr, DecidableEq

/-- The `lint` session: five `session.notify` calls and nothing else. -/
def lint : LintTrace :=
  { notified := ["typing", "static", "formatters", "spelling", "actionlint"]
    installs := []
    commands := [] }

/-- `_relaxed_parser(session).parse_args(posargs)` for the `checkers`
session: `--relaxed` has `default=False` and `action=BooleanOptionalAction`
(`--relaxed` sets it true, `--no-relaxed` sets it false, the last occurrence
wins); any other token is unrecognized and makes argparse abort (`none`). -/
def parse_relaxed : List String → Bool → Option Bool
  | [], acc => some acc
  | a :: restArgs, _ =>
    if a = "--relaxed" then parse_relaxed restArgs true
    else if a = "--no-relaxed" then parse_relaxed restArgs false
    else none

/-- The parser of the `make` session: `_relaxed_parser` plus a positional
`make_args` with `nargs="*"`; tokens other than the two flags are collected
as make targets, except that unrecognized option-like tokens (leading `-`)
make argparse abort. -/
def parse_make : List String → Bool → List String → Option (Bool × List String)
  | [], acc, targets => some (acc, targets)
  | a :: restArgs, acc, targets =>
    if a = "--relaxed" then parse_make restArgs true targets
    else if a = "--no-relaxed" then parse_make restArgs false targets
    else if pyStartsWith a "-" then none
    else parse_make restArgs acc (targets ++ [a])

/-- Observable trace of a `checkers` or `make` session run: the requirement
set passed to `install` and the commands run afterwards. -/
structure SessionTrace where
  installReq : String
  commands : List (List String)
deriving Repr, DecidableEq

/-- The `checkers` session for parametrization value `test`: parse the
relaxed flag, `install(session, req="requirements-relaxed" if args.relaxed
else "requirements")`, then `_clone_core_check`, `make clean` and the
checker script.  `none` models an argparse abort. -/
def checkers (test : String) (posargs : List String) : Option SessionTrace :=
  (parse_relaxed posargs false).map fun relaxed =>
    { installReq := if relaxed then "requirements-relaxed" else "requirements"
      commands :=
        [["python", "docs/bin/clone-core.py", "--check"],
         ["make", "-C", "docs/docsite", "clean"],
         ["python", "tests/checkers.py", test]] }

/-- The `make` session, as a function of the resolved environment python
path (`_env_python`): parse flags and make targets, install the selected
requirement set, `_clone_core_check`, query the python path, then run `make`
with `PYTHON=...` and the targets (defaulting to `clean coredocs`). -/
def make_session (pythonPath : String) (posargs : List String) :
    Option SessionTrace :=
  (parse_make posargs false []).map fun parsed =>
    { installReq :=
        if parsed.1 then "requirements-relaxed" else "requirements"
      commands :=
        [["python", "docs/bin/clone-core.py", "--check"],
         ["python", "-c", "import sys; print(sys.executable)"],
         ["make", "-C", "docs/docsite", "PYTHON=" ++ pythonPath] ++
           (if parsed.2.isEmpty then ["clean", "coredocs"] else parsed.2)] }

/-- A concrete search-path state resolving only `podman`, used to exercise
the container-engine resolver on concrete inputs. -/
def whichOnlyPodman : String → Option String :=
  fun engine => if engine = "podman" then some "/usr/bin/podman" else none

/-- The three pinning variable names. -/
def pinKeys : List String := ["PIP_CONSTRAINT", "UV_CONSTRAINT", "UV_BUILD_CONSTRAINT"]

theorem dictGet_dictInsert_self (d : List (String × String)) (k v : String) :
    dictGet (dictInsert d k v) k = some v := by
  induction d with
  | nil => simp [dictInsert, dictGet]
  | cons p d ih =>
    by_cases h : p.1 = k
    · simp [dictInsert, h, dictGet]
    · simpa [dictInsert, h, dictGet] using ih

theorem dictGet_dictInsert_of_ne (d : List (String × String)) (k v k2 : String)
    (h : k2 ≠ k) : dictGet (dictInsert d k v) k2 = dictGet d k2 := by
  induction d with
  | nil => simp [dictInsert, dictGet, Ne.symm h]
  | cons p d ih =>
    by_cases hp : p.1 = k
    · simp [dictInsert, hp, dictGet, Ne.symm h]
    · by_cases hp2 : p.1 = k2
      · simp [dictInsert, hp, dictGet, hp2, h]
      · simpa [dictInsert, hp, dictGet, hp2] using ih

/-- C1: with pinning enabled, the `env` passed to `session.install` is the
caller-supplied env mapping updated with the three pinning variables, the
pinning values taking precedence over identically-named caller entries
(and entries for other keys being preserved), and every caller-supplied
keyword argument other than `env` is passed through unchanged. -/
theorem install_env_merge (req : String) (args : List String) (kwargs : Kwargs) :
    (install true req args kwargs).env =
      some (dictUpdate (kwargs.env.getD []) (pinEnv req)) ∧
    (∀ k, k ∈ pinKeys →
      dictGet ((install true req args kwargs).env.getD []) k =
        some (pipConstraint req)) ∧
    (∀ k, k ∉ pinKeys →
      dictGet ((install true req args kwargs).env.getD []) k =
        dictGet (kwargs.env.getD []) k) ∧
    (install true req args kwargs).rest = kwargs.rest := by
  have henv : (install true req args kwargs).env =
      some (dictUpdate (kwargs.env.getD []) (pinEnv req)) := rfl
  refine ⟨henv, ?_, ?_, rfl⟩
  · intro k hk
    simp only [pinKeys, List.mem_cons, List.not_mem_nil, or_false] at hk
    rw [henv, Option.getD_some]
    simp only [dictUpdate, pinEnv, List.foldl]
    rcases hk with rfl | rfl | rfl
    · rw [dictGet_dictInsert_of_ne _ _ _ _ (by decide),
        dictGet_dictInsert_of_ne _ _ _ _ (by decide), dictGet_dictInsert_self]
    · rw [dictGet_dictInsert_of_ne _ _ _ _ (by decide), dictGet_dictInsert_self]
    · rw [dictGet_dictInsert_self]
  · intro k hk
    simp only [pinKeys, List.mem_cons, List.not_mem_nil, or_false, not_or] at hk
    obtain ⟨h1, h2, h3⟩ := hk
    rw [henv, Option.getD_some]
    simp only [dictUpdate, pinEnv, List.foldl]
    rw [dictGet_dictInsert_of_ne _ _ _ _ h3, dictGet_dictInsert_of_ne _ _ _ _ h2,
      dictGet_dictInsert_of_ne _ _ _ _ h1]

/-- Witness for C1 at a concrete call whose caller env already carries a
conflicting `PIP_CONSTRAINT` entry and one unrelated key. -/
theorem install_env_merge_witness :
    ("PIP_CONSTRAINT" ∈ pinKeys) ∧ ("HOME" ∉ pinKeys) ∧
    dictGet ((install true "typing" []
        ⟨some [("PIP_CONSTRAINT", "caller.txt"), ("HOME", "/root")],
         [("silent", "True")]⟩).env.getD []) "PIP_CONSTRAINT" =
      some (pipConstraint "typing") ∧
    dictGet ((install true "typing" []
        ⟨some [("PIP_CONSTRAINT", "caller.txt"), ("HOME", "/root")],
         [("silent", "True")]⟩).env.getD []) "HOME" =
      dictGet [("PIP_CONSTRAINT", "caller.txt"), ("HOME", "/root")] "HOME" :=
  ⟨by decide, by decide,
    (install_env_merge "typing" []
        ⟨some [("PIP_CONSTRAINT", "caller.txt"), ("HOME", "/root")],
         [("silent", "True")]⟩).2.1 "PIP_CONSTRAINT" (by decide),
    (install_env_merge "typing" []
        ⟨some [("PIP_CONSTRAINT", "caller.txt"), ("HOME", "/root")],
         [("silent", "True")]⟩).2.2.1 "HOME" (by decide)⟩

theorem ne_check_of_prefix_tests (req suffix : String)
    (hlen : 7 < ("tests/" ++ req ++ suffix).length) :
    "tests/" ++ req ++ suffix ≠ "--check" := by
  intro h
  rw [h] at hlen
  revert hlen
  decide

/-- C2 counterexample: when the passthrough list contains `--check` twice,
`args.remove("--check")` deletes only the first occurrence, so `--check`
still appears in the final command line passed to `pip-compile`. -/
theorem check_removed_once_cex :
    "--check" ∈ (["--check", "--check"] : List String) ∧
    "--check" ∈ pip_compile_cmd "typing" ["--check", "--check"] := by
  decide

/-- C2 (amended): when the passthrough list contains `--check`, exactly one
occurrence is removed before forwarding (the forwarded list is
`posargs.erase "--check"`, whose `--check` count is one less); when the list
contains exactly one occurrence, `--check` does not appear anywhere in the
final `pip-compile` command line. -/
theorem check_removed_once (req : String) (posargs : List String)
    (h : "--check" ∈ posargs) :
    pip_compile_args posargs = posargs.erase "--check" ∧
    (pip_compile_args posargs).count "--check" = posargs.count "--check" - 1 ∧
    (posargs.count "--check" = 1 → "--check" ∉ pip_compile_cmd req posargs) := by
  have hargs : pip_compile_args posargs = posargs.erase "--check" := by
    simp [pip_compile_args, h]
  refine ⟨hargs, ?_, ?_⟩
  · rw [hargs]; exact List.count_erase_self _ _
  · intro hcount hmem
    simp only [pip_compile_cmd, List.mem_append, List.mem_cons,
      List.not_mem_nil, or_false] at hmem
    rcases hmem with ((h1 | h1 | h1) | h2) | h3
    · exact absurd h1.symm (by decide)
    · exact absurd h1.symm (by decide)
    · refine ne_check_of_prefix_tests req ".txt" ?_ h1.symm
      rw [String.length_append, String.length_append]
      have e1 : ("tests/" : String).length = 6 := rfl
      have e2 : (".txt" : String).length = 4 := rfl
      omega
    · rw [hargs] at h2
      have : posargs.count "--check" - 1 = 0 := by omega
      exact (List.count_eq_zero.mp ((List.count_erase_self _ _).trans this)) h2
    · refine ne_check_of_prefix_tests req ".in" ?_ h3.symm
      rw [String.length_append, String.length_append]
      have e1 : ("tests/" : String).length = 6 := rfl
      have e2 : (".in" : String).length = 3 := rfl
      omega

/-- Witness for C2 (amended) at `posargs = ["--check"]`. -/
theorem check_removed_once_witness :
    ("--check" ∈ (["--check"] : List String)) ∧
    pip_compile_args ["--check"] = (["--check"] : List String).erase "--check" ∧
    ((["--check"] : List String).count "--check" = 1 →
      "--check" ∉ pip_compile_cmd "typing" ["--check"]) :=
  ⟨by decide, (check_removed_once "typing" ["--check"] (by decide)).1,
    (check_removed_once "typing" ["--check"] (by decide)).2.2⟩

/-- C10: when `--check` is absent and no argument starts with `-P`,
`--upgrade-package` or `--no-upgrade`, `--upgrade` is appended to the
forwarded arguments; when `--check` is present, or such an argument is
present, the forwarded arguments get no `--upgrade` appended. -/
theorem upgrade_appended_by_default (posargs : List String) :
    ("--check" ∉ posargs → posargs.any upgradeArg = false →
      pip_compile_args posargs = posargs ++ ["--upgrade"]) ∧
    ("--check" ∈ posargs → pip_compile_args posargs = posargs.erase "--check") ∧
    ("--check" ∉ posargs → posargs.any upgradeArg = true →
      pip_compile_args posargs = posargs) := by
  refine ⟨?_, ?_, ?_⟩ <;> intro h1 <;>
    first
      | (intro h2; simp [pip_compile_args, h1, h2])
      | simp [pip_compile_args, h1]

/-- Witness for C10 at three concrete passthrough lists. -/
theorem upgrade_appended_by_default_witness :
    pip_compile_args ["--resolver", "backtracking"] =
      ["--resolver", "backtracking", "--upgrade"] ∧
    pip_compile_args ["--check"] = [] ∧
    pip_compile_args ["-Ppip"] = ["-Ppip"] :=
  ⟨(upgrade_appended_by_default ["--resolver", "backtracking"]).1
      (by decide) (by decide),
    (upgrade_appended_by_default ["--check"]).2.1 (by decide),
    (upgrade_appended_by_default ["-Ppip"]).2.2 (by decide) (by decide)⟩

/-- C6: in check mode (with the `pip-compile` run succeeding), `git diff` is
run against the fixed directory `tests`; a nonempty diff makes the session
fail with the message `Check mode: files were changed`, an empty diff lets
it succeed. -/
theorem check_mode_diff_verification (req : String) (posargs : List String)
    (diffOutput : String) (h : "--check" ∈ posargs) :
    (pip_compile_run req posargs true diffOutput).gitDiff = some "tests" ∧
    (diffOutput ≠ "" →
      (pip_compile_run req posargs true diffOutput).outcome =
        .error "Check mode: files were changed") ∧
    (diffOutput = "" →
      (pip_compile_run req posargs true diffOutput).outcome = .success) := by
  by_cases hd : diffOutput = "" <;> simp [pip_compile_run, h, hd]

/-- Witness for C6 at `posargs = ["--check"]`, with a nonempty and an empty
diff output. -/
theorem check_mode_diff_verification_witness :
    (pip_compile_run "typing" ["--check"] true "M tests/typing.txt").gitDiff =
      some "tests" ∧
    (pip_compile_run "typing" ["--check"] true "M tests/typing.txt").outcome =
      .error "Check mode: files were changed" ∧
    (pip_compile_run "typing" ["--check"] true "").outcome = .success :=
  ⟨(check_mode_diff_verification "typing" ["--check"] "M tests/typing.txt"
      (by decide)).1,
    (check_mode_diff_verification "typing" ["--check"] "M tests/typing.txt"
      (by decide)).2.1 (by decide),
    (check_mode_diff_verification "typing" ["--check"] "" (by decide)).2.2 rfl⟩

/-- C3: the pinning toggle is truthy exactly when the `PINNED` environment
value lowercases to `1` or `true` (defaulting to enabled when unset); a
truthy toggle makes the installer set exactly the three variables
`PIP_CONSTRAINT`, `UV_CONSTRAINT`, `UV_BUILD_CONSTRAINT`, all to the
constraint path derived from the requirement set; a falsy toggle makes it
set none of them and install straight from the input file, leaving the
caller env untouched. -/
theorem pinned_toggle_controls_constraints (v : Option String) (req : String)
    (args : List String) (kwargs : Kwargs) :
    PINNED none = true ∧
    (∀ s, PINNED (some s) = true ↔ (pyLower s = "1" ∨ pyLower s = "true")) ∧
    (PINNED v = true →
      (install (PINNED v) req args kwargs).envSet =
        [("PIP_CONSTRAINT", pipConstraint req),
         ("UV_CONSTRAINT", pipConstraint req),
         ("UV_BUILD_CONSTRAINT", pipConstraint req)]) ∧
    (PINNED v = false →
      (install (PINNED v) req args kwargs).envSet = [] ∧
      (install (PINNED v) req args kwargs).env = kwargs.env ∧
      (install (PINNED v) req args kwargs).installArgs =
        ["-r", "tests/" ++ req ++ ".in"] ++ args) := by
  refine ⟨by decide, ?_, ?_, ?_⟩
  · intro s
    simp [PINNED]
  · intro h
    rw [h]
    rfl
  · intro h
    rw [h]
    exact ⟨rfl, rfl, rfl⟩

/-- Witness for C3 at `PINNED=TRUE` (truthy) and `PINNED=false` (falsy). -/
theorem pinned_toggle_controls_constraints_witness :
    (PINNED (some "TRUE") = true ↔
      (pyLower "TRUE" = "1" ∨ pyLower "TRUE" = "true")) ∧
    (install (PINNED (some "TRUE")) "typing" [] ⟨none, []⟩).envSet =
      [("PIP_CONSTRAINT", pipConstraint "typing"),
       ("UV_CONSTRAINT", pipConstraint "typing"),
       ("UV_BUILD_CONSTRAINT", pipConstraint "typing")] ∧
    (install (PINNED (some "false")) "typing" [] ⟨none, []⟩).envSet = [] :=
  ⟨(pinned_toggle_controls_constraints (some "TRUE") "typing" [] ⟨none, []⟩).2.1
      "TRUE",
    (pinned_toggle_controls_constraints (some "TRUE") "typing" []
      ⟨none, []⟩).2.2.1 (by decide),
    ((pinned_toggle_controls_constraints (some "false") "typing" []
      ⟨none, []⟩).2.2.2 (by decide)).1⟩

/-- C4: an explicit container-engine override that the search path cannot
resolve makes resolution fail with the descriptive override error, for every
state of the search path (in particular the probe of the candidate list is
never reached and no candidate path is ever returned). -/
theorem invalid_override_never_falls_back (which : String → Option String)
    (c sessionName : String) (hne : c ≠ "") (hwhich : which c = none) :
    get_container_engine which (some c) sessionName =
      .err (overrideErrMsg c) ∧
    ∀ p, get_container_engine which (some c) sessionName ≠ .ok p := by
  have h : get_container_engine which (some c) sessionName =
      .err (overrideErrMsg c) := by
    simp [get_container_engine, truthyStr, hne, hwhich]
  exact ⟨h, fun p hp => by rw [h] at hp; exact EngineResult.noConfusion hp⟩

/-- Witness for C4: the override `cri` is not on a search path that would
resolve `podman`, and resolution errors out instead of probing. -/
theorem invalid_override_never_falls_back_witness :
    ("cri" : String) ≠ "" ∧ whichOnlyPodman "cri" = none ∧
    get_container_engine whichOnlyPodman (some "cri") "actionlint" =
      .err (overrideErrMsg "cri") :=
  ⟨by decide, rfl,
    (invalid_override_never_falls_back whichOnlyPodman "cri" "actionlint"
      (by decide) rfl).1⟩

/-- C5: for every directory listing, the discovered requirement-set
identifiers never include the denylisted `constraints` or
`constraints-base`, and the resulting list is duplicate-free. -/
theorem requirements_files_denylist_and_nodup (listing : List String) :
    "constraints" ∉ requirements_files listing ∧
    "constraints-base" ∉ requirements_files listing ∧
    (requirements_files listing).Nodup := by
  refine ⟨?_, ?_, ?_⟩
  · intro h
    simp [requirements_files, List.mem_filter] at h
  · intro h
    simp [requirements_files, List.mem_filter] at h
  · exact List.Nodup.filter _ (List.nodup_dedup _)

/-- C8: with no (truthy) override, resolution probes `podman` then `docker`
and returns the path of the first engine the search path resolves — in
particular it is deterministic when exactly one is present — and when
neither is found it fails with the error naming both candidates. -/
theorem probe_returns_first_candidate (which : String → Option String)
    (chosen : Option String) (sessionName : String)
    (hchosen : truthyStr chosen = false) :
    (∀ p, which "podman" = some p → p ≠ "" →
      get_container_engine which chosen sessionName = .ok p) ∧
    (truthyStr (which "podman") = false →
      ∀ p, which "docker" = some p → p ≠ "" →
        get_container_engine which chosen sessionName = .ok p) ∧
    (truthyStr (which "podman") = false → truthyStr (which "docker") = false →
      get_container_engine which chosen sessionName =
        .err (noEngineErrMsg sessionName)) := by
  have hc : chosen.getD "" = "" := by
    by_contra hcon
    simp [truthyStr, hcon] at hchosen
  refine ⟨?_, ?_, ?_⟩
  · intro p hp hne
    simp [get_container_engine, hc, CONTAINER_ENGINES, probeEngines,
      truthyStr, hp, hne]
  · intro hpod p hp hne
    simp only [truthyStr] at hpod
    simp [get_container_engine, hc, CONTAINER_ENGINES, probeEngines,
      truthyStr, hp, hne, hpod]
  · intro hpod hdoc
    simp only [truthyStr] at hpod hdoc
    simp [get_container_engine, hc, CONTAINER_ENGINES, probeEngines,
      truthyStr, hpod, hdoc]

/-- Witness for C8: a search path resolving only `podman`, no override. -/
theorem probe_returns_first_candidate_witness :
    truthyStr none = false ∧ whichOnlyPodman "podman" = some "/usr/bin/podman" ∧
    ("/usr/bin/podman" : String) ≠ "" ∧
    get_container_engine whichOnlyPodman none "actionlint" =
      .ok "/usr/bin/podman" :=
  ⟨rfl, rfl, by decide,
    (probe_returns_first_candidate whichOnlyPodman none "actionlint" rfl).1
      "/usr/bin/podman" rfl (by decide)⟩

/-- C9: the lint aggregator installs nothing and runs no command itself; it
notifies exactly the five sub-tasks `typing`, `static`, `formatters`,
`spelling`, `actionlint`, each exactly once. -/
theorem lint_notifies_five_tasks :
    lint.notified = ["typing", "static", "formatters", "spelling", "actionlint"] ∧
    lint.notified.length = 5 ∧ lint.notified.Nodup ∧
    lint.installs = [] ∧ lint.commands = [] := by
  refine ⟨rfl, rfl, ?_, rfl, rfl⟩
  decide

theorem parse_make_snd_irrel (args : List String) :
    ∀ r r2 targets,
      (parse_make args r targets).map Prod.snd =
        (parse_make args r2 targets).map Prod.snd := by
  induction args with
  | nil => intro r r2 targets; rfl
  | cons a restArgs ih =>
    intro r r2 targets
    by_cases h1 : a = "--relaxed"
    · simp [parse_make, h1]
    · by_cases h2 : a = "--no-relaxed"
      · simp [parse_make, h1, h2]
      · by_cases h3 : pyStartsWith a "-"
        · simp [parse_make, h1, h2, h3]
        · simpa [parse_make, h1, h2, h3] using ih r r2 (targets ++ [a])

/-- C7: in both relaxed-flag sessions (`checkers` and `make`), `--relaxed`
selects the requirement set `requirements-relaxed` while no flag (default
false) or `--no-relaxed` selects `requirements`; the commands the session
then runs do not depend on which one was chosen. -/
theorem relaxed_flag_selects_requirements (test pythonPath : String)
    (restArgs : List String) :
    (checkers test ["--relaxed"]).map SessionTrace.installReq =
      some "requirements-relaxed" ∧
    (checkers test []).map SessionTrace.installReq = some "requirements" ∧
    (checkers test ["--no-relaxed"]).map SessionTrace.installReq =
      some "requirements" ∧
    (make_session pythonPath ["--relaxed"]).map SessionTrace.installReq =
      some "requirements-relaxed" ∧
    (make_session pythonPath []).map SessionTrace.installReq =
      some "requirements" ∧
    (make_session pythonPath ["--no-relaxed"]).map SessionTrace.installReq =
      some "requirements" ∧
    (∀ p, (checkers test p).map SessionTrace.commands =
      (parse_relaxed p false).map fun _ =>
        [["python", "docs/bin/clone-core.py", "--check"],
         ["make", "-C", "docs/docsite", "clean"],
         ["python", "tests/checkers.py", test]]) ∧
    (make_session pythonPath ("--relaxed" :: restArgs)).map
        SessionTrace.commands =
      (make_session pythonPath ("--no-relaxed" :: restArgs)).map
        SessionTrace.commands := by
  refine ⟨rfl, rfl, rfl, rfl, rfl, rfl, ?_, ?_⟩
  · intro p
    cases h : parse_relaxed p false <;> simp [checkers, h]
  · have key := parse_make_snd_irrel restArgs true false []
    have e1 : parse_make ("--relaxed" :: restArgs) false [] =
        parse_make restArgs true [] := rfl
    have e2 : parse_make ("--no-relaxed" :: restArgs) false [] =
        parse_make restArgs false [] := rfl
    simp only [make_session, e1, e2]
    cases hx : parse_make restArgs true [] with
    | none =>
      cases hy : parse_make restArgs false [] with
      | none => rfl
      | some q => rw [hx, hy] at key; exact absurd key (by simp)
    | some p =>
      cases hy : parse_make restArgs false [] with
      | none => rw [hx, hy] at key; exact absurd key (by simp)
      | some q =>
        rw [hx, hy] at key
        simp at key
        simp [key]

end Noxfile
